import Mathlib

/-!
Shallow embedding of the provisioning-saga repository (deploy-script).

The adapters (`namecheap.ts`, the Cloudflare and Vercel clients) perform HTTP
calls and catch every transport error internally, returning plain result
values; here every such externally-determined response is supplied by an
environment (`Env`).  Thrown JavaScript exceptions are modelled as
`Except.error`; functions that never throw return plain values.
-/

namespace DeployScript

/-- JS template-literal rendering of a possibly-`undefined` string
(`undefined` interpolates as the text "undefined"). -/
def jsStr (o : Option String) : String := o.getD "undefined"

/-- JS `a || b` on an optional string: `undefined` and `""` are falsy. -/
def jsOr (o : Option String) (dflt : String) : String :=
  match o with
  | some s => if s = "" then dflt else s
  | none => dflt

/-- JS truthiness of an optional string (`undefined` and `""` are falsy). -/
def jsTruthy (o : Option String) : Bool :=
  match o with
  | some s => s != ""
  | none => false

/-- Result shape of `namecheap.checkAvailability`. -/
structure AvailabilityResult where
  available : Bool
  domain : String
  isPremium : Option Bool := none
  premiumPrice : Option String := none
  regularPrice : Option String := none
  errorMessage : Option String := none
deriving DecidableEq

/-- Result shape of `namecheap.purchaseDomain`. -/
structure PurchaseResult where
  success : Bool
  domainId : Option String := none
  transactionId : Option String := none
  orderId : Option String := none
  chargedAmount : Option String := none
  errorMessage : Option String := none
deriving DecidableEq

/-- Result shape of `namecheap.setNameservers`. -/
structure SetNameserversResult where
  success : Bool
  errorMessage : Option String := none
deriving DecidableEq

/-- Cloudflare zone data returned by `createZone` / `fetchExistingZone`. -/
structure CloudflareZone where
  id : String
  name : String
  status : String
  nameServers : List String
deriving DecidableEq

/-- Result shape of `cloudflare.createZone`. -/
structure CreateZoneResult where
  success : Bool
  zone : Option CloudflareZone := none
  errorMessage : Option String := none
  alreadyExists : Option Bool := none
deriving DecidableEq

/-- DNS record types accepted by the Cloudflare client. -/
inductive RecordType where
  | A
  | AAAA
  | CNAME
  | TXT
  | MX
deriving DecidableEq

/-- The string form of a record type (as interpolated into error messages). -/
def RecordType.render : RecordType → String
  | .A => "A"
  | .AAAA => "AAAA"
  | .CNAME => "CNAME"
  | .TXT => "TXT"
  | .MX => "MX"

/-- A DNS record passed to `cloudflare.createDNSRecord`. -/
structure DNSRecord where
  type : RecordType
  name : String
  content : String
  ttl : Option Nat := none
  proxied : Option Bool := none
  priority : Option Nat := none
deriving DecidableEq

/-- Result shape of `cloudflare.createDNSRecord`. -/
structure CreateDNSRecordResult where
  success : Bool
  recordId : Option String := none
  errorMessage : Option String := none
deriving DecidableEq

/-- A verification record emitted by `vercel.addDomain`. -/
structure VerificationRecord where
  type : String
  name : String
  value : String
deriving DecidableEq

/-- Result shape of `vercel.addDomain`. -/
structure AddDomainResult where
  success : Bool
  errorMessage : Option String := none
  verificationRequired : Option Bool := none
  verificationRecords : Option (List VerificationRecord) := none
deriving DecidableEq

/-- Result shape of `vercel.verifyDomain`. -/
structure VerifyDomainResult where
  success : Bool
  verified : Bool
  errorMessage : Option String := none
deriving DecidableEq

/-- Result shape of `cloudflare.getZoneStatus` (`null` becomes `none`). -/
structure ZoneStatus where
  status : String
  nameServers : List String
deriving DecidableEq

/-! ## Backoff retrier (`utils.retry`) -/

/-- Observable outcome of one `retry` run: the returned value or the thrown
error (`Except.error none` models `throw lastError` with `lastError` still
`undefined`, i.e. the loop never ran), the number of invocations of the
wrapped operation, and the awaited backoff delays in order. -/
structure RetryOutcome (E T : Type) where
  result : Except (Option E) T
  attemptsMade : Nat
  delays : List Nat

/-- Loop body of `utils.retry`: `attempt` is the 1-based attempt counter,
the `Nat` argument counts the attempts still allowed.  The wrapped operation
is a function of the attempt number so that distinct invocations may observe
distinct outcomes. -/
def retryAux {E T : Type} (fn : Nat → Except E T) (initialDelayMs maxDelayMs : Nat) :
    Nat → Nat → Option E → List Nat → Nat → RetryOutcome E T
  | _, 0, lastError, delaysRev, made => ⟨.error lastError, made, delaysRev.reverse⟩
  | attempt, r + 1, _, delaysRev, made =>
    match fn attempt with
    | .ok t => ⟨.ok t, made + 1, delaysRev.reverse⟩
    | .error e =>
      if r = 0 then ⟨.error (some e), made + 1, delaysRev.reverse⟩
      else
        retryAux fn initialDelayMs maxDelayMs (attempt + 1) r (some e)
          (min (initialDelayMs * 2 ^ (attempt - 1)) maxDelayMs :: delaysRev) (made + 1)

/-- `utils.retry(fn, { maxAttempts, initialDelayMs, maxDelayMs })`.
`maxAttempts` is an integer because the source accepts any JS number; the
`for` loop from 1 to `maxAttempts` runs `maxAttempts.toNat` times. -/
def retry {E T : Type} (fn : Nat → Except E T) (maxAttempts : Int)
    (initialDelayMs maxDelayMs : Nat) : RetryOutcome E T :=
  retryAux fn initialDelayMs maxDelayMs 1 maxAttempts.toNat none [] 0

/-! ## Polling waiters (`vercel.waitForDomainVerification`,
`cloudflare.waitForZoneActivation`) -/

/-- One observable event of a polling loop: an invocation of the status
check (with its 1-based attempt number) or an awaited `delay(ms)`. -/
inductive PollEvent where
  | check (attempt : Nat)
  | wait (ms : Nat)
deriving DecidableEq

/-- Shared loop shape of the two polling waiters: on each attempt invoke the
check; on a truthy check return `true` at once; otherwise, when attempts
remain, await the interval and continue; when the budget is spent return
`false`.  Second `Nat` argument counts the attempts still allowed. -/
def pollAux (c : Nat → Bool) (intervalMs : Nat) : Nat → Nat → Bool × List PollEvent
  | _, 0 => (false, [])
  | attempt, r + 1 =>
    if c attempt then (true, [.check attempt])
    else if r = 0 then (false, [.check attempt])
    else
      let rest := pollAux c intervalMs (attempt + 1) r
      (rest.1, .check attempt :: .wait intervalMs :: rest.2)

/-- `vercel.waitForDomainVerification(domain, maxAttempts, intervalMs)`:
polls `verifyDomain` (supplied per attempt by the environment) and succeeds
as soon as `result.verified` is true. -/
def waitForDomainVerification (verify : Nat → VerifyDomainResult)
    (maxAttempts intervalMs : Nat) : Bool × List PollEvent :=
  pollAux (fun attempt => (verify attempt).verified) intervalMs 1 maxAttempts

/-- `cloudflare.waitForZoneActivation(zoneId, maxAttempts, intervalMs)`:
polls `getZoneStatus` (supplied per attempt by the environment) and succeeds
as soon as `status?.status === "active"`. -/
def waitForZoneActivation (getStatus : Nat → Option ZoneStatus)
    (maxAttempts intervalMs : Nat) : Bool × List PollEvent :=
  pollAux (fun attempt =>
    match getStatus attempt with
    | some s => s.status == "active"
    | none => false) intervalMs 1 maxAttempts

/-! ## DNS record batch creation (`cloudflare.createDNSRecords`) -/

/-- Result shape of `cloudflare.createDNSRecords`. -/
structure DNSBatchResult where
  success : Bool
  recordIds : List String
  errors : List String
deriving DecidableEq

/-- Sequential loop of `createDNSRecords`: the `Nat` argument is the index
of the next record (each record triggers one `createDNSRecord` call, whose
response `outcome i` is environment data).  Returns the accumulated
`recordIds` and `errors` in push order.  A response counts as created only
when `success` holds and `recordId` is truthy, mirroring
`if (result.success && result.recordId)`. -/
def createDNSRecordsAux (outcome : Nat → CreateDNSRecordResult) :
    Nat → List DNSRecord → List String × List String
  | _, [] => ([], [])
  | i, record :: rest =>
    let result := outcome i
    let next := createDNSRecordsAux outcome (i + 1) rest
    if result.success && jsTruthy result.recordId then
      (result.recordId.getD "" :: next.1, next.2)
    else
      (next.1, (record.type.render ++ " " ++ record.name ++ ": " ++
        jsStr result.errorMessage) :: next.2)

/-- `cloudflare.createDNSRecords(zoneId, records)`: create every record in
list order, collect ids of successful creations and formatted messages for
failures; overall `success` iff no errors. -/
def createDNSRecords (outcome : Nat → CreateDNSRecordResult)
    (records : List DNSRecord) : DNSBatchResult :=
  let acc := createDNSRecordsAux outcome 0 records
  { success := acc.2.isEmpty, recordIds := acc.1, errors := acc.2 }

/-! ## Registrar helpers (`namecheap.ts`) -/

/-- `domain.split('.')` on the character list: split at every dot, keeping
empty parts, never returning an empty list (as in JS). -/
def splitDot : List Char → List (List Char)
  | [] => [[]]
  | c :: cs =>
    let rest := splitDot cs
    if c = '.' then [] :: rest
    else
      match rest with
      | [] => [[c]]
      | p :: ps => (c :: p) :: ps

/-- `domain.split('.')` as a list of strings. -/
def splitDomainParts (domain : String) : List String :=
  (splitDot domain.data).map (fun cs => String.mk cs)

/-- `parts.slice(1).join('.')`. -/
def joinDot : List String → String
  | [] => ""
  | [p] => p
  | p :: rest => p ++ "." ++ joinDot rest

/-- `namecheap.splitDomain`: split into SLD and TLD, throwing
(`Except.error`) when the name has fewer than two dot-separated parts. -/
def splitDomain (domain : String) : Except String (String × String) :=
  match splitDomainParts domain with
  | [] => .error ("Invalid domain format: " ++ domain)
  | [_] => .error ("Invalid domain format: " ++ domain)
  | sld :: rest => .ok (sld, joinDot rest)

end DeployScript

namespace DeployScript

/-- The externally-determined responses one workflow run can observe: the
outcome of each `validateConfig` call (`Except.error` = thrown) and the
response value of every adapter HTTP call.  Per-call response families are
indexed by call number. -/
structure Env where
  validateNamecheap : Except String Unit
  validateRegistrant : Except String Unit
  validateCloudflare : Except String Unit
  validateVercel : Except String Unit
  availability : AvailabilityResult
  purchase : PurchaseResult
  zoneResult : CreateZoneResult
  nsResults : Nat → SetNameserversResult
  dnsOutcome : Nat → CreateDNSRecordResult
  vercelAdd : AddDomainResult
  txtOutcome : Nat → CreateDNSRecordResult
  verify : Nat → VerifyDomainResult

/-- `namecheap.purchaseDomain`: destructures `splitDomain(domain)` before its
`try` block, so an invalid domain throws; past that point every failure is
caught internally and the environment's response value is returned. -/
def purchaseDomain (env : Env) (domain : String) : Except String PurchaseResult :=
  match splitDomain domain with
  | .error e => .error e
  | .ok _ => .ok env.purchase

/-- `namecheap.setNameservers`: calls `splitDomain(domain)` before its `try`
block, so an invalid domain throws; otherwise the environment's response for
this invocation (`callIndex`, 1-based to match retry attempts) is returned. -/
def setNameservers (env : Env) (domain : String) (callIndex : Nat) :
    Except String SetNameserversResult :=
  match splitDomain domain with
  | .error e => .error e
  | .ok _ => .ok (env.nsResults callIndex)

/-- `vercel.getVercelDNSRecords(domain)`: the fixed apex A record and www
CNAME pointing at Vercel. -/
def getVercelDNSRecords (_domain : String) : List DNSRecord :=
  [ { type := .A, name := "@", content := "76.76.21.21" },
    { type := .CNAME, name := "www", content := "cname.vercel-dns.com" } ]

/-- The record list step 5 passes to `createDNSRecords`: the Vercel records
with `@` replaced by the apex domain and `proxied := false`. -/
def step5Records (domain : String) : List DNSRecord :=
  (getVercelDNSRecords domain).map (fun r =>
    { type := r.type, name := if r.name == "@" then domain else r.name
    , content := r.content, proxied := some false })

/-! ## Saga state and result (`index.ts` / `namecheap.ts` workflow section) -/

/-- `WorkflowState`: rollback-relevant facts accumulated by the saga. -/
structure WorkflowState where
  domain : String
  years : Nat
  enableWhoisGuard : Bool
  domainPurchased : Bool
  cloudflareZoneId : Option String
  cloudflareRecordIds : List String
  vercelDomainAdded : Bool
deriving DecidableEq

/-- The seven per-step flags of `WorkflowResult.steps`. -/
structure WorkflowSteps where
  availabilityCheck : Bool
  domainPurchase : Bool
  cloudflareZone : Bool
  nameserversSet : Bool
  dnsRecords : Bool
  vercelDomain : Bool
  vercelVerified : Bool
deriving DecidableEq

/-- `Object.values(result.steps).every((step) => step === true)`. -/
def WorkflowSteps.allTrue (s : WorkflowSteps) : Bool :=
  s.availabilityCheck && s.domainPurchase && s.cloudflareZone && s.nameserversSet &&
    s.dnsRecords && s.vercelDomain && s.vercelVerified

/-- `WorkflowResult.details`. -/
structure WorkflowDetails where
  domainId : Option String
  transactionId : Option String
  cloudflareZoneId : Option String
  cloudflareNameservers : Option (List String)
  dnsRecordIds : Option (List String)
deriving DecidableEq

/-- `WorkflowResult` as returned by `runWorkflow`. -/
structure WorkflowResult where
  success : Bool
  steps : WorkflowSteps
  details : WorkflowDetails
  errors : List String
deriving DecidableEq

/-- The external HTTP operations a run can perform, for tracing which calls
were issued.  The `nc`-prefixed constructors are the registrar (Namecheap)
operations present in the source.  `ncUndoPurchase` is modelled from the
spec: it names the hypothetical registrar "undo purchase" operation of the
spec's irreversibility property; no such function exists in the source, and
the constructor exists only so that its absence from every trace is a
statable fact. -/
inductive ApiCall where
  | ncCheckAvailability (domain : String)
  | ncPurchase (domain : String)
  | ncSetNameservers (domain : String)
  | ncUndoPurchase (domain : String)
  | cfCreateZone (domain : String)
  | cfCreateRecord (zoneId : String)
  | cfDeleteRecord (zoneId recordId : String)
  | vercelAddDomain (domain : String)
  | vercelRemoveDomain (domain : String)
  | vercelVerify (domain : String)
deriving DecidableEq

/-- Whether a call is an operation of the registrar adapter. -/
def ApiCall.isRegistrar : ApiCall → Bool
  | .ncCheckAvailability _ => true
  | .ncPurchase _ => true
  | .ncSetNameservers _ => true
  | .ncUndoPurchase _ => true
  | _ => false

/-- What one `rollback(state)` run does, as observable actions: whether the
Vercel domain removal was attempted, which record deletions were attempted
(in iteration order), and whether the cannot-be-refunded manual-action
warning was logged. -/
structure RollbackReport where
  removedVercelDomain : Bool
  attemptedRecordDeletions : List String
  manualActionWarning : Bool
deriving DecidableEq

/-- `rollback(state)`: remove the Vercel domain if it was added; delete the
created DNS records when a (truthy) zone id is known and the id list is
non-empty; and, when the domain was purchased, only log the warning that a
purchase cannot be automatically refunded. -/
def rollback (state : WorkflowState) : RollbackReport :=
  { removedVercelDomain := state.vercelDomainAdded
  , attemptedRecordDeletions :=
      if jsTruthy state.cloudflareZoneId && !state.cloudflareRecordIds.isEmpty then
        state.cloudflareRecordIds
      else []
  , manualActionWarning := state.domainPurchased }

/-- The HTTP calls `rollback(state)` issues (`vercel.removeDomain`, then one
`cloudflare.deleteDNSRecord` per recorded id); note it issues no registrar
call. -/
def rollbackCalls (state : WorkflowState) : List ApiCall :=
  (if state.vercelDomainAdded then [ApiCall.vercelRemoveDomain state.domain] else []) ++
    (if jsTruthy state.cloudflareZoneId && !state.cloudflareRecordIds.isEmpty then
      state.cloudflareRecordIds.map
        (fun rid => ApiCall.cfDeleteRecord (state.cloudflareZoneId.getD "") rid)
    else [])

/-- The step-6 loop over `vercelAddResult.verificationRecords`: for each
record of type `"TXT"` call `cloudflare.createDNSRecord` (responses supplied
by `outcome`, indexed by call number starting at the first argument) and
keep the id when the response is successful and truthy.  Returns the kept
ids in order together with the number of creation calls made. -/
def createVerificationTXTRecords (outcome : Nat → CreateDNSRecordResult) :
    Nat → List VerificationRecord → List String × Nat
  | _, [] => ([], 0)
  | i, record :: rest =>
    if record.type == "TXT" then
      let txtResult := outcome i
      let next := createVerificationTXTRecords outcome (i + 1) rest
      if txtResult.success && jsTruthy txtResult.recordId then
        (txtResult.recordId.getD "" :: next.1, next.2 + 1)
      else
        (next.1, next.2 + 1)
    else
      createVerificationTXTRecords outcome i rest

/-- Everything observable about one `runWorkflow` run: the returned
`WorkflowResult`, the final `WorkflowState`, the report of the rollback run
(`none` when no rollback ran), and the trace of issued HTTP calls. -/
structure WorkflowRun where
  result : WorkflowResult
  state : WorkflowState
  rollbackReport : Option RollbackReport
  calls : List ApiCall

/-- The outer `catch` of `runWorkflow`: push `Unexpected: <message>`, run
`rollback(state)`, return the result built so far. -/
def catchUnexpected (msg : String) (state : WorkflowState) (steps : WorkflowSteps)
    (details : WorkflowDetails) (errors : List String) (calls : List ApiCall) :
    WorkflowRun :=
  { result := { success := false, steps := steps, details := details
              , errors := errors ++ ["Unexpected: " ++ msg] }
  , state := state
  , rollbackReport := some (rollback state)
  , calls := calls ++ rollbackCalls state }

/-- `runWorkflow(domain, years, enableWhoisGuard)` over the environment's
adapter responses, mirroring the seven steps, the early returns, the
rollback sites and the outer catch of the source. -/
def runWorkflow (env : Env) (domain : String) (years : Nat) (enableWhoisGuard : Bool) :
    WorkflowRun :=
  let state0 : WorkflowState :=
    { domain := domain, years := years, enableWhoisGuard := enableWhoisGuard
    , domainPurchased := false, cloudflareZoneId := none
    , cloudflareRecordIds := [], vercelDomainAdded := false }
  let steps0 : WorkflowSteps :=
    { availabilityCheck := false, domainPurchase := false, cloudflareZone := false
    , nameserversSet := false, dnsRecords := false, vercelDomain := false
    , vercelVerified := false }
  let details0 : WorkflowDetails :=
    { domainId := none, transactionId := none, cloudflareZoneId := none
    , cloudflareNameservers := none, dnsRecordIds := none }
  -- STEP 1: availability
  match env.validateNamecheap with
  | .error m => catchUnexpected m state0 steps0 details0 [] []
  | .ok _ =>
  let calls1 := [ApiCall.ncCheckAvailability domain]
  if env.availability.available then
    let steps1 := { steps0 with availabilityCheck := true }
    -- STEP 2: purchase
    match env.validateRegistrant with
    | .error m => catchUnexpected m state0 steps1 details0 [] calls1
    | .ok _ =>
    match purchaseDomain env domain with
    | .error m => catchUnexpected m state0 steps1 details0 [] calls1
    | .ok p =>
    let calls2 := calls1 ++ [ApiCall.ncPurchase domain]
    if p.success then
      let state1 := { state0 with domainPurchased := true }
      let steps2 := { steps1 with domainPurchase := true }
      let details1 := { details0 with
        domainId := p.domainId, transactionId := p.transactionId }
      -- STEP 3: Cloudflare zone
      match env.validateCloudflare with
      | .error m => catchUnexpected m state1 steps2 details1 [] calls2
      | .ok _ =>
      let calls3 := calls2 ++ [ApiCall.cfCreateZone domain]
      match env.zoneResult.success, env.zoneResult.zone with
      | true, some z =>
        let state2 := { state1 with cloudflareZoneId := some z.id }
        let steps3 := { steps2 with cloudflareZone := true }
        let details2 := { details1 with
          cloudflareZoneId := some z.id, cloudflareNameservers := some z.nameServers }
        -- STEP 4: nameservers, wrapped in retry
        let nsOutcome := retry (fun attempt => setNameservers env domain attempt) 3 5000 30000
        let calls4 := calls3 ++
          (List.range nsOutcome.attemptsMade).map (fun _ => ApiCall.ncSetNameservers domain)
        match nsOutcome.result with
        | .error e => catchUnexpected (jsStr e) state2 steps3 details2 [] calls4
        | .ok ns =>
        if ns.success then
          let steps4 := { steps3 with nameserversSet := true }
          -- STEP 5: DNS records
          let records5 := step5Records domain
          let dnsRes := createDNSRecords env.dnsOutcome records5
          let calls5 := calls4 ++ records5.map (fun _ => ApiCall.cfCreateRecord z.id)
          let state3 := { state2 with cloudflareRecordIds := dnsRes.recordIds }
          let details3 := { details2 with dnsRecordIds := some dnsRes.recordIds }
          let errors5 := if dnsRes.success then [] else dnsRes.errors
          let steps5 := { steps4 with dnsRecords := dnsRes.success }
          -- STEP 6: add domain to Vercel
          match env.validateVercel with
          | .error m => catchUnexpected m state3 steps5 details3 errors5 calls5
          | .ok _ =>
          let calls6 := calls5 ++ [ApiCall.vercelAddDomain domain]
          if env.vercelAdd.success then
            let state4 := { state3 with vercelDomainAdded := true }
            let steps6 := { steps5 with vercelDomain := true }
            let txtData :=
              if env.vercelAdd.verificationRequired.getD false &&
                  env.vercelAdd.verificationRecords.isSome then
                createVerificationTXTRecords env.txtOutcome 0
                  (env.vercelAdd.verificationRecords.getD [])
              else ([], 0)
            let state5 := { state4 with
              cloudflareRecordIds := state4.cloudflareRecordIds ++ txtData.1 }
            let calls7 := calls6 ++
              (List.range txtData.2).map (fun _ => ApiCall.cfCreateRecord z.id)
            -- STEP 7: verification polling
            let wv := waitForDomainVerification env.verify 10 30000
            let calls8 := calls7 ++ wv.2.filterMap (fun ev =>
              match ev with
              | .check _ => some (ApiCall.vercelVerify domain)
              | .wait _ => none)
            let errors7 :=
              if wv.1 then []
              else ["Vercel Verification: Failed after 10 attempts - requires manual review"]
            let steps7 := { steps6 with vercelVerified := wv.1 }
            { result := { success := steps7.allTrue, steps := steps7, details := details3
                        , errors := errors5 ++ errors7 }
            , state := state5, rollbackReport := none, calls := calls8 }
          else
            { result := { success := false, steps := steps5, details := details3
                        , errors := errors5 ++ ["Vercel Add: " ++ jsStr env.vercelAdd.errorMessage] }
            , state := state3, rollbackReport := some (rollback state3)
            , calls := calls6 ++ rollbackCalls state3 }
        else
          { result := { success := false, steps := steps3, details := details2
                      , errors := ["Nameservers: " ++ jsStr ns.errorMessage] }
          , state := state2, rollbackReport := some (rollback state2)
          , calls := calls4 ++ rollbackCalls state2 }
      | _, _ =>
        { result := { success := false, steps := steps2, details := details1
                    , errors := ["Cloudflare Zone: " ++ jsStr env.zoneResult.errorMessage] }
        , state := state1, rollbackReport := some (rollback state1)
        , calls := calls3 ++ rollbackCalls state1 }
    else
      { result := { success := false, steps := steps1, details := details0
                  , errors := ["Purchase: " ++ jsStr p.errorMessage] }
      , state := state0, rollbackReport := none, calls := calls2 }
  else
    { result := { success := false, steps := steps0, details := details0
                , errors := ["Availability: " ++ jsOr env.availability.errorMessage
                    "Domain is not available"] }
    , state := state0, rollbackReport := none, calls := calls1 }

/-! ## Concrete environments (the spec's end-to-end scenarios) -/

/-- The zone of the happy-path scenario. -/
def happyZone : CloudflareZone :=
  { id := "Z1", name := "example-test.com", status := "pending"
  , nameServers := ["ns1.x", "ns2.x"] }

/-- The happy-path scenario: everything succeeds on first try. -/
def happyEnv : Env :=
  { validateNamecheap := .ok ()
  , validateRegistrant := .ok ()
  , validateCloudflare := .ok ()
  , validateVercel := .ok ()
  , availability := { available := true, domain := "example-test.com" }
  , purchase := { success := true, domainId := some "D1", transactionId := some "T1" }
  , zoneResult := { success := true, zone := some happyZone }
  , nsResults := fun _ => { success := true }
  , dnsOutcome := fun i =>
      if i = 0 then { success := true, recordId := some "R1" }
      else { success := true, recordId := some "R2" }
  , vercelAdd := { success := true }
  , txtOutcome := fun _ => { success := true, recordId := some "TXT1" }
  , verify := fun _ => { success := true, verified := true } }

/-- Zone creation fails with a non-conflict error right after a successful
purchase (the spec's end-to-end failure scenario). -/
def zoneFailEnv : Env :=
  { happyEnv with zoneResult :=
      { success := false, errorMessage := some "Internal error" } }

example : (runWorkflow happyEnv "example-test.com" 1 true).result.success = true := by decide

example : (runWorkflow happyEnv "example-test.com" 1 true).result.errors = [] := by decide

example : (runWorkflow happyEnv "example-test.com" 1 true).state.cloudflareRecordIds
    = ["R1", "R2"] := by decide

example : (runWorkflow happyEnv "example-test.com" 1 true).calls
    = [ApiCall.ncCheckAvailability "example-test.com", ApiCall.ncPurchase "example-test.com",
       ApiCall.cfCreateZone "example-test.com", ApiCall.ncSetNameservers "example-test.com",
       ApiCall.cfCreateRecord "Z1", ApiCall.cfCreateRecord "Z1",
       ApiCall.vercelAddDomain "example-test.com", ApiCall.vercelVerify "example-test.com"] := by
  decide

example : (runWorkflow zoneFailEnv "example-test.com" 1 true).result.errors
    = ["Cloudflare Zone: Internal error"] := by decide

example : (runWorkflow zoneFailEnv "example-test.com" 1 true).rollbackReport
    = some { removedVercelDomain := false, attemptedRecordDeletions := []
           , manualActionWarning := true } := by decide

/-! ## Backoff retrier: exhaustion and invalid attempt counts -/

/-- C7: with `maxAttempts = 3` and an operation that fails on every attempt,
`retry` invokes the operation exactly 3 times and finally fails with the
error observed on the 3rd (last) attempt, not an earlier one. -/
theorem retry_three_attempts_last_error {E T : Type} (e : Nat → E)
    (initialDelayMs maxDelayMs : Nat) :
    (retry (fun attempt => (Except.error (e attempt) : Except E T)) 3
        initialDelayMs maxDelayMs).attemptsMade = 3
    ∧ (retry (fun attempt => (Except.error (e attempt) : Except E T)) 3
        initialDelayMs maxDelayMs).result = Except.error (some (e 3)) := by
  constructor <;> rfl

/-- C8: with `maxAttempts ≤ 0` the attempt loop never runs: the wrapped
operation is never invoked, no delay is awaited, and `retry` fails at once
(the source's final `throw lastError` throws the still-`undefined`
`lastError`, modelled as `Except.error none`). -/
theorem retry_nonpositive_attempts_never_invokes {E T : Type} (fn : Nat → Except E T)
    (maxAttempts : Int) (initialDelayMs maxDelayMs : Nat) (h : maxAttempts ≤ 0) :
    retry fn maxAttempts initialDelayMs maxDelayMs
      = { result := Except.error none, attemptsMade := 0, delays := [] } := by
  have h0 : maxAttempts.toNat = 0 := Int.toNat_of_nonpos h
  simp [retry, h0, retryAux]

/-- Witness for C8 at `maxAttempts = 0`. -/
theorem retry_nonpositive_attempts_never_invokes_witness :
    retry (fun _ => (Except.error "boom" : Except String Unit)) 0 1000 30000
      = { result := Except.error none, attemptsMade := 0, delays := [] } :=
  retry_nonpositive_attempts_never_invokes _ 0 1000 30000 (by decide)

/-! ## Polling waiters: check/delay order and termination -/

/-- The event trace of a polling loop whose first `s` checks are pending and
whose check at attempt `firstAttempt + s` ends the loop: check, wait, check,
wait, …, check — the interval is awaited between attempts only. -/
def expectedPollTrace (intervalMs : Nat) : Nat → Nat → List PollEvent
  | firstAttempt, 0 => [PollEvent.check firstAttempt]
  | firstAttempt, s + 1 =>
    PollEvent.check firstAttempt :: PollEvent.wait intervalMs ::
      expectedPollTrace intervalMs (firstAttempt + 1) s

theorem pollAux_succ (c : Nat → Bool) (i a r : Nat) :
    pollAux c i a (r + 1)
      = if c a then (true, [PollEvent.check a])
        else if r = 0 then (false, [PollEvent.check a])
        else ((pollAux c i (a + 1) r).1,
          PollEvent.check a :: PollEvent.wait i :: (pollAux c i (a + 1) r).2) := rfl

theorem pollAux_head (c : Nat → Bool) (i a r : Nat) :
    ((pollAux c i a (r + 1)).2).head? = some (PollEvent.check a) := by
  rw [pollAux_succ]
  split
  · rfl
  · split
    · rfl
    · rfl

theorem pollAux_all_false (c : Nat → Bool) (i : Nat) :
    ∀ s a, (∀ j, a ≤ j → j ≤ a + s → c j = false) →
    pollAux c i a (s + 1) = (false, expectedPollTrace i a s) := by
  intro s
  induction s with
  | zero =>
    intro a h
    have hca : c a = false := h a (le_refl a) (by omega)
    rw [pollAux_succ, hca]
    simp [expectedPollTrace]
  | succ n ih =>
    intro a h
    have hca : c a = false := h a (le_refl a) (by omega)
    have hrec := ih (a + 1) (fun j hj1 hj2 => h j (by omega) (by omega))
    rw [pollAux_succ, hca, hrec]
    simp [expectedPollTrace]

theorem pollAux_first_true (c : Nat → Bool) (i : Nat) :
    ∀ s a r, c (a + s) = true → (∀ j, a ≤ j → j < a + s → c j = false) → s ≤ r →
    pollAux c i a (r + 1) = (true, expectedPollTrace i a s) := by
  intro s
  induction s with
  | zero =>
    intro a r hc _ _
    rw [Nat.add_zero] at hc
    rw [pollAux_succ, hc]
    simp [expectedPollTrace]
  | succ n ih =>
    intro a r hc hfail hle
    have hca : c a = false := hfail a (le_refl a) (by omega)
    obtain ⟨r', rfl⟩ : ∃ r', r = r' + 1 := ⟨r - 1, by omega⟩
    have hshift : a + 1 + n = a + (n + 1) := by omega
    have hrec := ih (a + 1) r' (by rw [hshift]; exact hc)
      (fun j hj1 hj2 => hfail j (by omega) (by omega)) (by omega)
    rw [pollAux_succ, hca, hrec]
    simp [expectedPollTrace]

/-- Characterization of the shared polling loop starting at attempt 1. -/
theorem pollLoop_spec (c : Nat → Bool) (ma i : Nat) (h : 1 ≤ ma) :
    ((pollAux c i 1 ma).2.head? = some (PollEvent.check 1))
    ∧ (∀ k, 1 ≤ k → k ≤ ma → c k = true → (∀ j, 1 ≤ j → j < k → c j = false) →
        pollAux c i 1 ma = (true, expectedPollTrace i 1 (k - 1)))
    ∧ ((∀ k, 1 ≤ k → k ≤ ma → c k = false) →
        pollAux c i 1 ma = (false, expectedPollTrace i 1 (ma - 1))) := by
  obtain ⟨m, rfl⟩ : ∃ m, ma = m + 1 := ⟨ma - 1, by omega⟩
  refine ⟨pollAux_head c i 1 m, ?_, ?_⟩
  · intro k hk1 hk2 hc hfail
    have hk : k - 1 + 1 = k := by omega
    have h1 : 1 + (k - 1) = k := by omega
    have := pollAux_first_true c i (k - 1) 1 m (by rw [h1]; exact hc)
      (fun j hj1 hj2 => hfail j hj1 (by omega)) (by omega)
    simpa using this
  · intro hfail
    have := pollAux_all_false c i m 1 (fun j hj1 hj2 => hfail j hj1 (by omega))
    simpa using this

/-- C4 counterexample: a check that reports verified on the very first
attempt produces the trace `[check 1]` — the check is invoked before any
suspension and no delay is awaited at all, refuting "each iteration first
suspends for the interval and then invokes the check". -/
theorem waiter_first_event_is_check_counterexample :
    waitForDomainVerification (fun _ => { success := true, verified := true }) 10 30000
      = (true, [PollEvent.check 1])
    ∧ (waitForDomainVerification
        (fun _ => { success := true, verified := true }) 10 30000).2.head?
      ≠ some (PollEvent.wait 30000) := by
  constructor
  · decide
  · decide

/-- C4 (amended): each iteration invokes the check first; a terminal success
returns `true` immediately with no further delay; a non-verified or failed
check is treated as still pending (there is no terminal-failure early exit),
and the interval is awaited only between attempts; exhausting `maxAttempts`
without success returns `false`.  Stated via the full event traces of both
polling waiters. -/
theorem waiter_check_then_wait (verify : Nat → VerifyDomainResult)
    (getStatus : Nat → Option ZoneStatus) (maxAttempts intervalMs : Nat)
    (h : 1 ≤ maxAttempts) :
    ((waitForDomainVerification verify maxAttempts intervalMs).2.head?
        = some (PollEvent.check 1))
    ∧ (∀ k, 1 ≤ k → k ≤ maxAttempts → (verify k).verified = true →
        (∀ j, 1 ≤ j → j < k → (verify j).verified = false) →
        waitForDomainVerification verify maxAttempts intervalMs
          = (true, expectedPollTrace intervalMs 1 (k - 1)))
    ∧ ((∀ k, 1 ≤ k → k ≤ maxAttempts → (verify k).verified = false) →
        waitForDomainVerification verify maxAttempts intervalMs
          = (false, expectedPollTrace intervalMs 1 (maxAttempts - 1)))
    ∧ ((waitForZoneActivation getStatus maxAttempts intervalMs).2.head?
        = some (PollEvent.check 1))
    ∧ (∀ k, 1 ≤ k → k ≤ maxAttempts →
        (match getStatus k with
          | some s => s.status == "active"
          | none => false) = true →
        (∀ j, 1 ≤ j → j < k →
          (match getStatus j with
            | some s => s.status == "active"
            | none => false) = false) →
        waitForZoneActivation getStatus maxAttempts intervalMs
          = (true, expectedPollTrace intervalMs 1 (k - 1)))
    ∧ ((∀ k, 1 ≤ k → k ≤ maxAttempts →
        (match getStatus k with
          | some s => s.status == "active"
          | none => false) = false) →
        waitForZoneActivation getStatus maxAttempts intervalMs
          = (false, expectedPollTrace intervalMs 1 (maxAttempts - 1))) := by
  have h1 := pollLoop_spec (fun attempt => (verify attempt).verified) maxAttempts intervalMs h
  have h2 := pollLoop_spec (fun attempt =>
    (match getStatus attempt with
      | some s => s.status == "active"
      | none => false)) maxAttempts intervalMs h
  exact ⟨h1.1, h1.2.1, h1.2.2, h2.1, h2.2.1, h2.2.2⟩

/-- A check that is pending on attempt 1 and verified on attempt 2. -/
def pendingThenVerified : Nat → VerifyDomainResult := fun k =>
  if k = 1 then { success := true, verified := false }
  else { success := true, verified := true }

/-- Witness for the amended C4: two attempts, verified on the second — the
trace is check, wait, check and the waiter returns true. -/
theorem waiter_check_then_wait_witness :
    waitForDomainVerification pendingThenVerified 2 30000
      = (true, expectedPollTrace 30000 1 1) := by
  have h := (waiter_check_then_wait pendingThenVerified (fun _ => none) 2 30000
    (by decide)).2.1
  exact h 2 (by decide) (by decide) (by decide)
    (fun j hj1 hj2 => by
      have : j = 1 := by omega
      subst this
      decide)

/-! ## DNS record batches -/

theorem createDNSRecordsAux_recordIds (outcome : Nat → CreateDNSRecordResult) :
    ∀ (records : List DNSRecord) (i : Nat),
    (createDNSRecordsAux outcome i records).1
      = (List.range' i records.length).filterMap (fun n =>
          if (outcome n).success && jsTruthy (outcome n).recordId then
            (outcome n).recordId
          else none) := by
  intro records
  induction records with
  | nil => intro i; simp [createDNSRecordsAux]
  | cons r rest ih =>
    intro i
    simp only [createDNSRecordsAux, List.length_cons, List.range'_succ, List.filterMap_cons]
    rw [ih (i + 1)]
    by_cases hcond : ((outcome i).success && jsTruthy (outcome i).recordId) = true
    · rcases hr : (outcome i).recordId with _ | s
      · rw [hr] at hcond; simp [jsTruthy] at hcond
      · rw [hr] at hcond
        simp [hr, hcond]
    · rw [Bool.not_eq_true] at hcond
      simp only [hcond, Bool.false_eq_true, if_false]

/-- C6: `createDNSRecords` issues creations sequentially in list order and
records exactly the ids of the successful creations, in order; in
particular, for 3 records where exactly the 2nd fails, the batch returns
`recordIds = [id1, id3]`, `success = false`, and a single error formatted
`"<type> <name>: <message>"` naming the 2nd record. -/
theorem createDNSRecords_batch_order (outcome : Nat → CreateDNSRecordResult)
    (records : List DNSRecord) (r1 r2 r3 : DNSRecord) (i1 i3 msg : String)
    (h1 : outcome 0 = { success := true, recordId := some i1 })
    (h2 : outcome 1 = { success := false, errorMessage := some msg })
    (h3 : outcome 2 = { success := true, recordId := some i3 })
    (hi1 : i1 ≠ "") (hi3 : i3 ≠ "") :
    ((createDNSRecords outcome records).recordIds
        = (List.range records.length).filterMap (fun n =>
            if (outcome n).success && jsTruthy (outcome n).recordId then
              (outcome n).recordId
            else none))
    ∧ createDNSRecords outcome [r1, r2, r3]
        = { success := false, recordIds := [i1, i3]
          , errors := [r2.type.render ++ " " ++ r2.name ++ ": " ++ msg] } := by
  constructor
  · have := createDNSRecordsAux_recordIds outcome records 0
    simpa [createDNSRecords, List.range_eq_range'] using this
  · have ht1 : jsTruthy (some i1) = true := by simp [jsTruthy, hi1]
    have ht3 : jsTruthy (some i3) = true := by simp [jsTruthy, hi3]
    simp [createDNSRecords, createDNSRecordsAux, h1, h2, h3, ht1, ht3, jsStr]

/-- Witness for C6's hypotheses at a concrete batch. -/
theorem createDNSRecords_batch_order_witness :
    createDNSRecords
      (fun n =>
        if n = 0 then { success := true, recordId := some "R1" }
        else if n = 1 then { success := false, errorMessage := some "invalid content" }
        else { success := true, recordId := some "R3" })
      [ { type := .A, name := "@", content := "76.76.21.21" }
      , { type := .CNAME, name := "www", content := "cname.vercel-dns.com" }
      , { type := .TXT, name := "_vc", content := "v" } ]
      = { success := false, recordIds := ["R1", "R3"]
        , errors := ["CNAME www: invalid content"] } := by
  have := (createDNSRecords_batch_order
    (fun n =>
      if n = 0 then { success := true, recordId := some "R1" }
      else if n = 1 then { success := false, errorMessage := some "invalid content" }
      else { success := true, recordId := some "R3" })
    []
    { type := .A, name := "@", content := "76.76.21.21" }
    { type := .CNAME, name := "www", content := "cname.vercel-dns.com" }
    { type := .TXT, name := "_vc", content := "v" }
    "R1" "R3" "invalid content"
    (by decide) (by decide) (by decide) (by decide) (by decide)).2
  simpa using this

/-! ## Invalid domains throw instead of returning result values -/

/-- C9 counterexample: for the dotless domain "localhost", both
`purchaseDomain` and `setNameservers` signal the failure through the thrown
exception of `splitDomain` (`Except.error`), not through a `success = false`
result value. -/
theorem invalid_domain_throws_counterexample :
    purchaseDomain happyEnv "localhost" = Except.error "Invalid domain format: localhost"
    ∧ setNameservers happyEnv "localhost" 1
      = Except.error "Invalid domain format: localhost" := by
  constructor
  · rfl
  · rfl

/-- C9 (amended): for every syntactically invalid domain (fewer than two
dot-separated parts), `purchaseDomain` and `setNameservers` throw
`Invalid domain format: <domain>` from `splitDomain` before issuing any
request — the failure is signalled through the exception mechanism, not
returned as an error result value. -/
theorem invalid_domain_throws (env : Env) (domain : String) (k : Nat)
    (h : (splitDomainParts domain).length < 2) :
    purchaseDomain env domain = Except.error ("Invalid domain format: " ++ domain)
    ∧ setNameservers env domain k
      = Except.error ("Invalid domain format: " ++ domain) := by
  have hsd : splitDomain domain = Except.error ("Invalid domain format: " ++ domain) := by
    unfold splitDomain
    rcases hp : splitDomainParts domain with _ | ⟨a, _ | ⟨b, rest⟩⟩
    · rfl
    · rfl
    · rw [hp] at h; simp at h; omega
  exact ⟨by simp [purchaseDomain, hsd], by simp [setNameservers, hsd]⟩

/-- Witness for the amended C9 at "localhost". -/
theorem invalid_domain_throws_witness :
    setNameservers happyEnv "localhost" 3
      = Except.error "Invalid domain format: localhost" :=
  (invalid_domain_throws happyEnv "localhost" 3 (by decide)).2

/-! ## Zone-creation failure and compensation -/

/-- C2 counterexample: in the spec's zone-failure scenario the returned
error list is exactly the single zone-creation entry — the manual-action
notice is not among the errors (the Compensator only logs it). -/
theorem zone_failure_single_error_counterexample :
    (runWorkflow zoneFailEnv "example-test.com" 1 true).result.errors
      = ["Cloudflare Zone: Internal error"]
    ∧ (runWorkflow zoneFailEnv "example-test.com" 1 true).result.errors.length = 1 := by
  constructor
  · decide
  · decide

/-- C2 (amended): when the availability check and the purchase succeed and
zone creation then fails with a non-conflict error, the saga runs the
Compensator, which skips the hosting-domain removal (never added) and the
record deletions (none created) and flags the purchase for manual action;
the result has `success = false` and its error list contains exactly one
entry, for the zone-creation failure — the manual-action notice appears in
the Compensator's logged report, not in the error list. -/
theorem zone_failure_compensation (env : Env) (domain : String) (years : Nat) (wg : Bool)
    (hv1 : env.validateNamecheap = Except.ok ())
    (hv2 : env.validateRegistrant = Except.ok ())
    (hv3 : env.validateCloudflare = Except.ok ())
    (ha : env.availability.available = true)
    (hd : ∃ p, splitDomain domain = Except.ok p)
    (hp : env.purchase.success = true)
    (hz : env.zoneResult.success = false) :
    (runWorkflow env domain years wg).result.success = false
    ∧ (runWorkflow env domain years wg).result.errors
        = ["Cloudflare Zone: " ++ jsStr env.zoneResult.errorMessage]
    ∧ (runWorkflow env domain years wg).rollbackReport
        = some { removedVercelDomain := false, attemptedRecordDeletions := []
               , manualActionWarning := true } := by
  obtain ⟨p, hsd⟩ := hd
  simp only [runWorkflow, hv1, hv2, hv3, ha, purchaseDomain, hsd, hp, hz, if_true,
    rollback, rollbackCalls, jsTruthy]
  simp [rollback, jsTruthy]

/-- Witness for the amended C2 in the concrete zone-failure scenario. -/
theorem zone_failure_compensation_witness :
    (runWorkflow zoneFailEnv "example-test.com" 1 true).result.success = false
    ∧ (runWorkflow zoneFailEnv "example-test.com" 1 true).result.errors
        = ["Cloudflare Zone: " ++ jsStr zoneFailEnv.zoneResult.errorMessage]
    ∧ (runWorkflow zoneFailEnv "example-test.com" 1 true).rollbackReport
        = some { removedVercelDomain := false, attemptedRecordDeletions := []
               , manualActionWarning := true } :=
  zone_failure_compensation zoneFailEnv "example-test.com" 1 true rfl rfl rfl rfl
    ⟨("example-test", "com"), rfl⟩ rfl rfl

/-! ## Step 4: the retry wrapper around setNameservers never retries -/

/-- The first nameserver-delegation call fails transiently (as a caught
error result); every later call would succeed. -/
def nsFailEnv : Env :=
  { happyEnv with nsResults := fun k =>
      if k = 1 then { success := false, errorMessage := some "Gateway timeout" }
      else { success := true } }

/-- C5 (the bug, proved): step 4 wraps `setNameservers` in
`retry(maxAttempts = 3)`, but `setNameservers` catches every transport error
internally and returns a result value, and `retry` retries only thrown
errors — so for a valid domain the delegation is invoked exactly once; when
that single call reports failure the saga records the error of attempt 1 and
runs the Compensator, even though `maxAttempts = 3` and later attempts would
have succeeded. -/
theorem nameserver_retry_never_retries (env : Env) (domain : String) (years : Nat)
    (wg : Bool)
    (hv1 : env.validateNamecheap = Except.ok ())
    (hv2 : env.validateRegistrant = Except.ok ())
    (hv3 : env.validateCloudflare = Except.ok ())
    (ha : env.availability.available = true)
    (hd : ∃ p, splitDomain domain = Except.ok p)
    (hp : env.purchase.success = true)
    (hz : env.zoneResult.success = true)
    (z : CloudflareZone) (hzz : env.zoneResult.zone = some z)
    (hns : (env.nsResults 1).success = false) :
    ((runWorkflow env domain years wg).calls.count (ApiCall.ncSetNameservers domain) = 1)
    ∧ (runWorkflow env domain years wg).result.steps.nameserversSet = false
    ∧ (runWorkflow env domain years wg).result.errors
        = ["Nameservers: " ++ jsStr (env.nsResults 1).errorMessage]
    ∧ (runWorkflow env domain years wg).rollbackReport
        = some (rollback { domain := domain, years := years, enableWhoisGuard := wg
                         , domainPurchased := true, cloudflareZoneId := some z.id
                         , cloudflareRecordIds := [], vercelDomainAdded := false }) := by
  obtain ⟨p, hsd⟩ := hd
  have h3 : (3 : Int).toNat = 3 := rfl
  simp only [runWorkflow, hv1, hv2, hv3, ha, purchaseDomain, hsd, hp, hz, hzz,
    retry, h3, retryAux, setNameservers, hns, if_true]
  simp [rollbackCalls, jsTruthy, hns, List.count_cons, List.count_nil]

/-- Witness for C5: with `nsFailEnv` (attempt 1 fails, attempts 2 and 3
would succeed) the delegation is attempted once and the saga aborts. -/
theorem nameserver_retry_never_retries_witness :
    ((runWorkflow nsFailEnv "example-test.com" 1 true).calls.count
        (ApiCall.ncSetNameservers "example-test.com") = 1)
    ∧ (runWorkflow nsFailEnv "example-test.com" 1 true).result.steps.nameserversSet = false
    ∧ (runWorkflow nsFailEnv "example-test.com" 1 true).result.errors
        = ["Nameservers: " ++ jsStr (nsFailEnv.nsResults 1).errorMessage]
    ∧ (runWorkflow nsFailEnv "example-test.com" 1 true).rollbackReport
        = some (rollback { domain := "example-test.com", years := 1, enableWhoisGuard := true
                         , domainPurchased := true, cloudflareZoneId := some happyZone.id
                         , cloudflareRecordIds := [], vercelDomainAdded := false }) :=
  nameserver_retry_never_retries nsFailEnv "example-test.com" 1 true rfl rfl rfl rfl
    ⟨("example-test", "com"), rfl⟩ rfl rfl happyZone rfl rfl

/-! ## Irreversibility of the purchase -/

theorem rollbackCalls_no_undo (state : WorkflowState) (d : String) :
    ApiCall.ncUndoPurchase d ∉ rollbackCalls state := by
  unfold rollbackCalls
  intro h
  rcases List.mem_append.mp h with h1 | h2
  · split at h1 <;> simp_all
  · split at h2 <;> simp_all [List.mem_map]

theorem rollbackCalls_not_registrar (state : WorkflowState) :
    ∀ c ∈ rollbackCalls state, c.isRegistrar = false := by
  intro c hc
  unfold rollbackCalls at hc
  rcases List.mem_append.mp hc with h1 | h2
  · split at h1
    · rcases List.mem_singleton.mp h1 with rfl
      rfl
    · simp at h1
  · split at h2
    · obtain ⟨rid, _, rfl⟩ := List.mem_map.mp h2
      rfl
    · simp at h2

theorem verify_calls_no_undo (domain d : String) (tr : List PollEvent) :
    ApiCall.ncUndoPurchase d ∉ tr.filterMap (fun ev =>
      match ev with
      | .check _ => some (ApiCall.vercelVerify domain)
      | .wait _ => none) := by
  intro h
  obtain ⟨ev, _, hev⟩ := List.mem_filterMap.mp h
  cases ev <;> simp at hev

set_option maxHeartbeats 0 in
theorem runWorkflow_no_undo (env : Env) (domain : String) (years : Nat) (wg : Bool)
    (d : String) : ApiCall.ncUndoPurchase d ∉ (runWorkflow env domain years wg).calls := by
  unfold runWorkflow catchUnexpected
  generalize retry (fun attempt => setNameservers env domain attempt) 3 5000 30000 = nso
  obtain ⟨res, made, delays⟩ := nso
  cases res
  repeat' split
  all_goals
    try (simp [rollbackCalls_no_undo, verify_calls_no_undo, List.mem_map, List.mem_filterMap,
      List.mem_replicate, List.mem_append])
  all_goals try split_ifs
  all_goals
    try (simp [rollbackCalls_no_undo, verify_calls_no_undo, List.mem_map, List.mem_filterMap,
      List.mem_replicate, List.mem_append])
  all_goals
    intro ev hev
  all_goals
    cases ev <;> simp

/-- C3: once `domainPurchased` is true, no code path invokes a registrar
undo/refund operation: the Compensator issues no registrar API call at all
and instead logs the manual-action warning, and no execution of the
workflow ever issues the (hypothetical) registrar undo-purchase call. -/
theorem purchase_is_irreversible (env : Env) (domain : String) (years : Nat) (wg : Bool)
    (state : WorkflowState) (h : state.domainPurchased = true) :
    (rollback state).manualActionWarning = true
    ∧ (∀ c ∈ rollbackCalls state, c.isRegistrar = false)
    ∧ (∀ d, ApiCall.ncUndoPurchase d ∉ (runWorkflow env domain years wg).calls) :=
  ⟨by simp [rollback, h], rollbackCalls_not_registrar state,
    fun d => runWorkflow_no_undo env domain years wg d⟩

/-! ## Step 6: verification TXT record creation -/

theorem createVerificationTXTRecords_spec (outcome : Nat → CreateDNSRecordResult) :
    ∀ (records : List VerificationRecord) (i : Nat),
    (createVerificationTXTRecords outcome i records).1
      = (List.range' i (records.filter (fun r => r.type == "TXT")).length).filterMap
          (fun n =>
            if (outcome n).success && jsTruthy (outcome n).recordId then (outcome n).recordId
            else none)
    ∧ (createVerificationTXTRecords outcome i records).2
      = (records.filter (fun r => r.type == "TXT")).length := by
  intro records
  induction records with
  | nil => intro i; simp [createVerificationTXTRecords]
  | cons r rest ih =>
    intro i
    by_cases ht : (r.type == "TXT") = true
    · have ih1 := (ih (i + 1)).1
      have ih2 := (ih (i + 1)).2
      simp only [createVerificationTXTRecords, ht, if_true, List.filter_cons, ih1, ih2,
        List.length_cons, List.range'_succ, List.filterMap_cons]
      constructor
      · by_cases hcond : ((outcome i).success && jsTruthy (outcome i).recordId) = true
        · rcases hr : (outcome i).recordId with _ | s
          · rw [hr] at hcond; simp [jsTruthy] at hcond
          · rw [hr] at hcond
            simp [hr, hcond]
        · rw [Bool.not_eq_true] at hcond
          simp only [hcond, Bool.false_eq_true, if_false]
      · split <;> rfl
    · rw [Bool.not_eq_true] at ht
      have := ih i
      simpa [createVerificationTXTRecords, ht, List.filter_cons] using this

/-- Witness for C3 at a purchased state with recorded resources. -/
theorem purchase_is_irreversible_witness :
    (rollback { domain := "example-test.com", years := 1, enableWhoisGuard := true
              , domainPurchased := true, cloudflareZoneId := some "Z1"
              , cloudflareRecordIds := ["R1"], vercelDomainAdded := true }).manualActionWarning
      = true :=
  (purchase_is_irreversible happyEnv "example-test.com" 1 true
    { domain := "example-test.com", years := 1, enableWhoisGuard := true
    , domainPurchased := true, cloudflareZoneId := some "Z1"
    , cloudflareRecordIds := ["R1"], vercelDomainAdded := true } rfl).1

/-- C10: in step 6, when the hosting platform requires verification, a
failing verification-TXT creation is silently dropped: the result's error
list and step flags are exactly those determined by the step-5 DNS batch and
the step-7 verification poll (no TXT failure is recorded), the saga proceeds
to step 7 (a verification call appears in the trace) and no rollback runs;
only the ids of successfully created records — and only those of records of
type TXT, in order — are appended to the rollback list
`cloudflareRecordIds`. -/
theorem txt_verification_failures_silently_dropped (env : Env) (domain : String)
    (years : Nat) (wg : Bool)
    (hv1 : env.validateNamecheap = Except.ok ())
    (hv2 : env.validateRegistrant = Except.ok ())
    (hv3 : env.validateCloudflare = Except.ok ())
    (hv4 : env.validateVercel = Except.ok ())
    (ha : env.availability.available = true)
    (hd : ∃ p, splitDomain domain = Except.ok p)
    (hp : env.purchase.success = true)
    (hz : env.zoneResult.success = true)
    (z : CloudflareZone) (hzz : env.zoneResult.zone = some z)
    (hns : (env.nsResults 1).success = true)
    (hva : env.vercelAdd.success = true)
    (hvr : env.vercelAdd.verificationRequired = some true)
    (rs : List VerificationRecord) (hrs : env.vercelAdd.verificationRecords = some rs) :
    ((runWorkflow env domain years wg).result.errors
        = (if (createDNSRecords env.dnsOutcome (step5Records domain)).success then []
            else (createDNSRecords env.dnsOutcome (step5Records domain)).errors)
          ++ (if (waitForDomainVerification env.verify 10 30000).1 then []
              else ["Vercel Verification: Failed after 10 attempts - requires manual review"]))
    ∧ ((runWorkflow env domain years wg).result.steps
        = { availabilityCheck := true, domainPurchase := true, cloudflareZone := true
          , nameserversSet := true
          , dnsRecords := (createDNSRecords env.dnsOutcome (step5Records domain)).success
          , vercelDomain := true
          , vercelVerified := (waitForDomainVerification env.verify 10 30000).1 })
    ∧ ((runWorkflow env domain years wg).state.cloudflareRecordIds
        = (createDNSRecords env.dnsOutcome (step5Records domain)).recordIds
          ++ (createVerificationTXTRecords env.txtOutcome 0 rs).1)
    ∧ ((createVerificationTXTRecords env.txtOutcome 0 rs).1
        = (List.range (rs.filter (fun r => r.type == "TXT")).length).filterMap (fun n =>
            if (env.txtOutcome n).success && jsTruthy (env.txtOutcome n).recordId then
              (env.txtOutcome n).recordId
            else none))
    ∧ (runWorkflow env domain years wg).rollbackReport = none
    ∧ ApiCall.vercelVerify domain ∈ (runWorkflow env domain years wg).calls := by
  obtain ⟨p, hsd⟩ := hd
  have h3 : (3 : Int).toNat = 3 := rfl
  have hcond : (env.vercelAdd.verificationRequired.getD false &&
      env.vercelAdd.verificationRecords.isSome) = true := by
    rw [hvr, hrs]; rfl
  have hhead : (waitForDomainVerification env.verify 10 30000).2.head?
      = some (PollEvent.check 1) := pollAux_head _ _ 1 9
  obtain ⟨t, htail⟩ : ∃ t, (waitForDomainVerification env.verify 10 30000).2
      = PollEvent.check 1 :: t := by
    rcases hl : (waitForDomainVerification env.verify 10 30000).2 with _ | ⟨e, t⟩
    · rw [hl] at hhead; simp at hhead
    · rw [hl] at hhead
      simp only [List.head?_cons, Option.some.injEq] at hhead
      exact ⟨t, by rw [hhead]⟩
  refine ⟨?_, ?_, ?_, ?_, ?_, ?_⟩
  · simp [runWorkflow, hv1, hv2, hv3, hv4, ha, purchaseDomain, hsd, hp, hz, hzz,
      retry, h3, retryAux, setNameservers, hns, hva, hcond, hvr, hrs]
  · simp [runWorkflow, hv1, hv2, hv3, hv4, ha, purchaseDomain, hsd, hp, hz, hzz,
      retry, h3, retryAux, setNameservers, hns, hva, hcond, hvr, hrs]
  · simp [runWorkflow, hv1, hv2, hv3, hv4, ha, purchaseDomain, hsd, hp, hz, hzz,
      retry, h3, retryAux, setNameservers, hns, hva, hcond, hvr, hrs]
  · have := (createVerificationTXTRecords_spec env.txtOutcome rs 0).1
    rw [this, List.range_eq_range']
  · simp [runWorkflow, hv1, hv2, hv3, hv4, ha, purchaseDomain, hsd, hp, hz, hzz,
      retry, h3, retryAux, setNameservers, hns, hva, hcond, hvr, hrs]
  · simp only [runWorkflow, hv1, hv2, hv3, hv4, ha, purchaseDomain, hsd, hp, hz, hzz,
      retry, h3, retryAux, setNameservers, hns, hva, hcond, hvr, hrs]
    simp [htail, List.mem_append, List.filterMap_cons, hns, hva, hcond, hvr, hrs]

/-- A step-6 scenario demanding verification: three verification records
(two TXT, one CNAME); the first TXT creation succeeds with id "T1", the
second fails. -/
def verifEnv : Env :=
  { happyEnv with
    vercelAdd :=
      { success := true, verificationRequired := some true
      , verificationRecords := some
          [ { type := "TXT", name := "_vercel", value := "v1" }
          , { type := "CNAME", name := "www", value := "x" }
          , { type := "TXT", name := "_vercel2", value := "v2" } ] }
  , txtOutcome := fun n =>
      if n = 0 then { success := true, recordId := some "T1" }
      else { success := false, errorMessage := some "txt create failed" } }

/-- Witness for C10: with one TXT creation succeeding (id "T1") and one
failing, the error list stays empty and only "T1" is appended after the
step-5 ids. -/
theorem txt_verification_failures_silently_dropped_witness :
    (runWorkflow verifEnv "example-test.com" 1 true).result.errors = []
    ∧ (runWorkflow verifEnv "example-test.com" 1 true).state.cloudflareRecordIds
        = ["R1", "R2", "T1"] := by
  have h := txt_verification_failures_silently_dropped verifEnv "example-test.com" 1 true
    rfl rfl rfl rfl rfl ⟨("example-test", "com"), rfl⟩ rfl rfl happyZone rfl rfl rfl rfl
    _ rfl
  constructor
  · rw [h.1]; decide
  · rw [h.2.2.1]; decide

/-! ## The result invariant -/

/-- The per-run result invariant of C1, stated after the claim's words for
comparison with `runWorkflow`: success iff all seven step flags; a false
flag forces a recorded error; success forces an empty error list. -/
def ResultInvariant (w : WorkflowRun) : Prop :=
  (w.result.success = true ↔ w.result.steps.allTrue = true)
  ∧ (w.result.steps.allTrue = false → w.result.errors ≠ [])
  ∧ (w.result.success = true → w.result.errors = [])

theorem catchUnexpected_invariant (msg : String) (state : WorkflowState)
    (steps : WorkflowSteps) (details : WorkflowDetails) (errors : List String)
    (calls : List ApiCall) (h : steps.allTrue = false) :
    ResultInvariant (catchUnexpected msg state steps details errors calls) := by
  unfold ResultInvariant catchUnexpected
  refine ⟨by simp [h], fun _ => by simp, by simp⟩

set_option maxHeartbeats 2000000 in
/-- C1: every run of the workflow, over any adapter responses, returns a
result in which success holds iff all seven step flags hold, any false step
flag is accompanied by at least one recorded error, and a successful run
carries an empty error list. -/
theorem workflow_success_invariant (env : Env) (domain : String) (years : Nat)
    (wg : Bool) : ResultInvariant (runWorkflow env domain years wg) := by
  have hde : (createDNSRecords env.dnsOutcome (step5Records domain)).success
      = (createDNSRecords env.dnsOutcome (step5Records domain)).errors.isEmpty := rfl
  unfold runWorkflow catchUnexpected
  generalize retry (fun attempt => setNameservers env domain attempt) 3 5000 30000 = nso
  obtain ⟨res, made, delays⟩ := nso
  cases res
  repeat' split
  all_goals try (simp [ResultInvariant, WorkflowSteps.allTrue])
  all_goals try split_ifs
  all_goals
    simp_all [ResultInvariant, WorkflowSteps.allTrue, List.isEmpty_iff]

/-- Witness-style corollary of C1 on the happy-path scenario. -/
theorem workflow_success_invariant_witness :
    (runWorkflow happyEnv "example-test.com" 1 true).result.errors = [] :=
  (workflow_success_invariant happyEnv "example-test.com" 1 true).2.2 (by decide)

end DeployScript
